import Mathlib

/-!
Verification of the VELRA virtual try-on usage-metering subsystem.

The definitions below are a shallow embedding of the usage-counter logic in
`backend/routes/virtual_tryon.py`, `backend/database.py` and
`backend/routes/notifications.py`.  MongoDB documents of the `tryon_usage`
collection become Lean structures; each route handler or helper becomes a
function from the subject's stored record (an `Option` of the record, `none`
meaning no document exists for the subject) to the new stored record plus the
response it computes.  Python `datetime` values are modelled at calendar-date
granularity, because every comparison the embedded code performs goes through
`.date()` ordering, `.date().month` ordering, or a comparison against the
midnight truncation of `now` (which coincides with date ordering).  Fields the
counter logic never reads (`last_used`, `app_version`, `device_model`,
`os_version`, `user_id` back-references) are omitted from the record model.
-/

namespace Velra

/-- Calendar date, modelling a Python `datetime` at the granularity at which the
usage-metering code observes it. -/
structure Date where
  year : Nat
  month : Nat
  day : Nat
deriving DecidableEq, Repr

/-- Python date comparison `a.date() < b.date()`: lexicographic on
(year, month, day). -/
def Date.ltb (a b : Date) : Bool :=
  Nat.blt a.year b.year ||
    (Nat.beq a.year b.year &&
      (Nat.blt a.month b.month ||
        (Nat.beq a.month b.month && Nat.blt a.day b.day)))

/-- `now.replace(day=1, hour=0, minute=0, second=0, microsecond=0)`:
the first of the current month. -/
def Date.monthStart (d : Date) : Date :=
  ⟨d.year, d.month, 1⟩

/-- One month genuinely precedes another in real time (year-aware). -/
def Date.monthEarlier (a b : Date) : Prop :=
  a.year < b.year ∨ (a.year = b.year ∧ a.month < b.month)

instance (a b : Date) : Decidable (a.monthEarlier b) := by
  unfold Date.monthEarlier
  infer_instance

/-- A `tryon_usage` document keyed by `device_id`, as written by the device
endpoints of `virtual_tryon.py`. -/
structure UsageRecord where
  daily_count : Nat
  monthly_count : Nat
  total_count : Nat
  last_reset_daily : Date
  last_reset_monthly : Date
deriving DecidableEq, Repr

/-- A `tryon_usage` document keyed by `user_id`, as written by
`track_tryon_usage` in `virtual_tryon.py` (it additionally stores the
`is_subscribed` flag). -/
structure UserUsageRecord where
  daily_count : Nat
  monthly_count : Nat
  total_count : Nat
  last_reset_daily : Date
  last_reset_monthly : Date
  is_subscribed : Bool
deriving DecidableEq, Repr

/-- Which limit a denial is attributed to (`DAILY_LIMIT_REACHED` /
`MONTHLY_LIMIT_REACHED`, or the corresponding 403 messages). -/
inductive LimitReason
  | daily
  | monthly
deriving DecidableEq, Repr

/-- The `counts` object of the device endpoints' responses. -/
structure UsageCounts where
  daily_count : Nat
  monthly_count : Nat
  total_count : Nat
deriving DecidableEq, Repr

def UsageRecord.counts (u : UsageRecord) : UsageCounts :=
  ⟨u.daily_count, u.monthly_count, u.total_count⟩

/-- Response shape of `POST /virtual-tryon/device-usage`
(`TryOnUsageResponse` plus the optional `error` field the handler attaches). -/
structure DeviceUsageResponse where
  counts : UsageCounts
  daily_limit : Nat
  monthly_limit : Nat
  error : Option LimitReason
deriving DecidableEq, Repr

/-- `daily_limit = 40 if is_subscribed else 1`, as computed by every device
endpoint (and with `is_premium` by the user endpoints). -/
def dailyLimitFor (is_subscribed : Bool) : Nat :=
  if is_subscribed then 40 else 1

/-- `monthly_limit = 40  # Both free and PRO users have 40/month limit`. -/
def monthlyLimit : Nat := 40

/-- The pure check section shared by the consuming device path
(`virtual_tryon.py` lines 958-994): monthly cap first, then the daily cap for
free users; `none` means the consumption is allowed. -/
def device_decide (daily_count monthly_count : Nat) (is_subscribed : Bool) :
    Option LimitReason :=
  if monthly_count ≥ monthlyLimit then some .monthly
  else if ¬is_subscribed ∧ daily_count ≥ dailyLimitFor is_subscribed then some .daily
  else none

/-- `$inc {daily_count: 1, monthly_count: 1, total_count: 1}`. -/
def UsageRecord.incAll (u : UsageRecord) : UsageRecord :=
  { u with daily_count := u.daily_count + 1,
           monthly_count := u.monthly_count + 1,
           total_count := u.total_count + 1 }

/-- `POST /virtual-tryon/device-usage` (`track_device_try_on_usage`,
`virtual_tryon.py` lines 837-1067): load the device record, apply the daily and
monthly reset writes, then either just report (`check_only`), deny on a limit,
or `$inc` all three counters and report the updated record. -/
def track_device_try_on_usage (store : Option UsageRecord)
    (check_only is_subscribed : Bool) (now : Date) :
    Option UsageRecord × DeviceUsageResponse :=
  let today := now
  let first_of_month := now.monthStart
  match store with
  | none =>
    if check_only then
      (none, ⟨⟨0, 0, 0⟩, dailyLimitFor is_subscribed, monthlyLimit, none⟩)
    else
      let new_usage : UsageRecord := ⟨1, 1, 1, today, first_of_month⟩
      (some new_usage, ⟨⟨1, 1, 1⟩, dailyLimitFor is_subscribed, monthlyLimit, none⟩)
  | some usage =>
    let dailyRolled := usage.last_reset_daily.ltb today
    let daily_count := if dailyRolled then 0 else usage.daily_count
    let store1 :=
      if dailyRolled then
        { usage with daily_count := 0, last_reset_daily := today }
      else usage
    let monthlyRolled := Nat.blt store1.last_reset_monthly.month now.month
    let monthly_count := if monthlyRolled then 0 else store1.monthly_count
    let store2 :=
      if monthlyRolled then
        { store1 with monthly_count := 0, last_reset_monthly := first_of_month }
      else store1
    let total_count := usage.total_count
    let daily_limit := dailyLimitFor is_subscribed
    if check_only then
      (some store2, ⟨⟨daily_count, monthly_count, total_count⟩, daily_limit, monthlyLimit, none⟩)
    else
      match device_decide daily_count monthly_count is_subscribed with
      | some r =>
        (some store2, ⟨⟨daily_count, monthly_count, total_count⟩, daily_limit, monthlyLimit, some r⟩)
      | none =>
        let store3 := store2.incAll
        (some store3, ⟨store3.counts, daily_limit, monthlyLimit, none⟩)

/-- Result tuple of the limit-check helpers
(`allowed, daily_limit, monthly_limit, daily_count, monthly_count, reason`). -/
structure LimitCheckResult where
  allowed : Bool
  daily_limit : Nat
  monthly_limit : Nat
  daily_count : Nat
  monthly_count : Nat
  reason : Option LimitReason
deriving DecidableEq, Repr

/-- `check_device_tryon_limits` (`virtual_tryon.py` lines 1070-1138): applies
the reset writes, then checks the DAILY limit first and the monthly limit
second. -/
def check_device_tryon_limits (store : Option UsageRecord) (is_subscribed : Bool)
    (now : Date) : Option UsageRecord × LimitCheckResult :=
  match store with
  | none =>
    (none, ⟨true, dailyLimitFor is_subscribed, monthlyLimit, 0, 0, none⟩)
  | some usage =>
    let today := now
    let first_of_month := now.monthStart
    let dailyRolled := usage.last_reset_daily.ltb today
    let daily_count := if dailyRolled then 0 else usage.daily_count
    let store1 :=
      if dailyRolled then
        { usage with daily_count := 0, last_reset_daily := today }
      else usage
    let monthlyRolled := Nat.blt store1.last_reset_monthly.month now.month
    let monthly_count := if monthlyRolled then 0 else store1.monthly_count
    let store2 :=
      if monthlyRolled then
        { store1 with monthly_count := 0, last_reset_monthly := first_of_month }
      else store1
    let daily_limit := dailyLimitFor is_subscribed
    if ¬is_subscribed ∧ daily_count ≥ daily_limit then
      (some store2, ⟨false, daily_limit, monthlyLimit, daily_count, monthly_count, some .daily⟩)
    else if monthly_count ≥ monthlyLimit then
      (some store2, ⟨false, daily_limit, monthlyLimit, daily_count, monthly_count, some .monthly⟩)
    else
      (some store2, ⟨true, daily_limit, monthlyLimit, daily_count, monthly_count, none⟩)

/-- `check_tryon_limit` (`virtual_tryon.py` lines 181-242), the user-keyed
variant: same reset logic, and likewise the daily check comes before the
monthly check. -/
def check_tryon_limit (store : Option UserUsageRecord) (is_premium : Bool)
    (now : Date) : Option UserUsageRecord × LimitCheckResult :=
  match store with
  | none =>
    (none, ⟨true, dailyLimitFor is_premium, monthlyLimit, 0, 0, none⟩)
  | some usage =>
    let today := now
    let first_of_month := now.monthStart
    let dailyRolled := usage.last_reset_daily.ltb today
    let daily_count := if dailyRolled then 0 else usage.daily_count
    let store1 :=
      if dailyRolled then
        { usage with daily_count := 0, last_reset_daily := today }
      else usage
    let monthlyRolled := Nat.blt store1.last_reset_monthly.month now.month
    let monthly_count := if monthlyRolled then 0 else store1.monthly_count
    let store2 :=
      if monthlyRolled then
        { store1 with monthly_count := 0, last_reset_monthly := first_of_month }
      else store1
    let daily_limit := dailyLimitFor is_premium
    if ¬is_premium ∧ daily_count ≥ daily_limit then
      (some store2, ⟨false, daily_limit, monthlyLimit, daily_count, monthly_count, some .daily⟩)
    else if monthly_count ≥ monthlyLimit then
      (some store2, ⟨false, daily_limit, monthlyLimit, daily_count, monthly_count, some .monthly⟩)
    else
      (some store2, ⟨true, daily_limit, monthlyLimit, daily_count, monthly_count, none⟩)

/-- `track_tryon_usage` (`virtual_tryon.py` lines 67-178), the user-keyed
consuming helper.  Returns the new store and which deny branch (if any) was
taken: the monthly check at line 140 comes before the daily check at line 145.
When a reset fires, the `$set` write also persists the `is_subscribed`
argument (lines 109-133); otherwise the flag is left as stored. -/
def track_tryon_usage (store : Option UserUsageRecord) (is_subscribed : Bool)
    (now : Date) : Option UserUsageRecord × Option LimitReason :=
  let today := now
  let first_of_month := now.monthStart
  match store with
  | none =>
    (some ⟨1, 1, 1, today, first_of_month, is_subscribed⟩, none)
  | some usage =>
    let dailyRolled := usage.last_reset_daily.ltb today
    let daily_count := if dailyRolled then 0 else usage.daily_count
    let monthlyRolled := Nat.blt usage.last_reset_monthly.month now.month
    let monthly_count := if monthlyRolled then 0 else usage.monthly_count
    let needs_update := dailyRolled || monthlyRolled
    let store1 :=
      if needs_update then
        { usage with
            daily_count := if dailyRolled then 0 else usage.daily_count,
            last_reset_daily := if dailyRolled then today else usage.last_reset_daily,
            monthly_count := if monthlyRolled then 0 else usage.monthly_count,
            last_reset_monthly :=
              if monthlyRolled then first_of_month else usage.last_reset_monthly,
            is_subscribed := is_subscribed }
      else usage
    if monthly_count ≥ monthlyLimit then
      (some store1, some .monthly)
    else if ¬is_subscribed ∧ daily_count ≥ 1 then
      (some store1, some .daily)
    else
      let store2 :=
        { store1 with daily_count := store1.daily_count + 1,
                      monthly_count := store1.monthly_count + 1,
                      total_count := store1.total_count + 1 }
      (some store2, none)

example :
    (track_device_try_on_usage (some ⟨0, 5, 5, ⟨2025, 6, 2⟩, ⟨2025, 6, 1⟩⟩)
      false false ⟨2025, 6, 2⟩).2.counts = ⟨1, 6, 6⟩ := by decide

example :
    (check_device_tryon_limits (some ⟨1, 40, 40, ⟨2025, 6, 2⟩, ⟨2025, 6, 1⟩⟩)
      false ⟨2025, 6, 2⟩).2.reason = some .daily := by decide

/-- Decision of the limit-check section at the top of the authenticated
`POST /virtual-tryon/try-async` handler. -/
inductive TryAsyncDecision
  | proceed
  | paywallDaily
  | limitMonthly
deriving DecidableEq, Repr

/-- The usage-check section of `start_virtual_try_on` (`virtual_tryon.py`
lines 259-303): only the MONTHLY counter is ever reset (lines 274-283); the
daily counter is read as stored with no rollover handling, then the free-tier
daily check (line 286) runs before the monthly check (line 293). -/
def try_async_usage_check (store : Option UserUsageRecord) (is_subscribed : Bool)
    (now : Date) : Option UserUsageRecord × TryAsyncDecision :=
  match store with
  | none => (none, .proceed)
  | some usage =>
    let daily_count := usage.daily_count
    let first_of_month := now.monthStart
    let monthlyRolled := Nat.blt usage.last_reset_monthly.month now.month
    let monthly_count := if monthlyRolled then 0 else usage.monthly_count
    let store1 :=
      if monthlyRolled then
        { usage with monthly_count := 0, last_reset_monthly := first_of_month }
      else usage
    if ¬is_subscribed ∧ daily_count ≥ 1 then
      (some store1, .paywallDaily)
    else if monthly_count ≥ monthlyLimit then
      (some store1, .limitMonthly)
    else
      (some store1, .proceed)

/-- The inline device tracking block of `start_virtual_try_on`
(`virtual_tryon.py` lines 497-579): create a fresh record with counts 1, or a
combined `$set`/`$inc` update (reset-to-1 or increment each window counter,
always increment the total), followed by the clamp of `monthly_count` to 40
when the post-increment value exceeds 40 (lines 572-579). -/
def inline_device_tracking (store : Option UsageRecord) (now : Date) :
    Option UsageRecord :=
  let today := now
  let first_of_month := now.monthStart
  match store with
  | none => some ⟨1, 1, 1, today, first_of_month⟩
  | some usage =>
    let u1 :=
      if usage.last_reset_daily.ltb today then
        { usage with daily_count := 1, last_reset_daily := today }
      else
        { usage with daily_count := usage.daily_count + 1 }
    let u2 :=
      if Nat.blt usage.last_reset_monthly.month now.month then
        { u1 with monthly_count := 1, last_reset_monthly := first_of_month }
      else
        { u1 with monthly_count := u1.monthly_count + 1 }
    let u3 := { u2 with total_count := u2.total_count + 1 }
    let u4 := if u3.monthly_count > 40 then { u3 with monthly_count := 40 } else u3
    some u4

/-- Response of `GET /virtual-tryon/usage` (`TryOnUsageResponse`). -/
structure UsageResponse where
  daily_count : Nat
  monthly_count : Nat
  total_count : Nat
  daily_limit : Nat
  monthly_limit : Nat
deriving DecidableEq, Repr

/-- `GET /virtual-tryon/usage` (`get_try_on_usage`, `virtual_tryon.py` lines
752-835): reports usage; if the daily window rolled over it writes
`daily_count = 0` and returns early, otherwise it may write the monthly reset;
on a same-day, same-month record no counter is written. -/
def get_try_on_usage (store : Option UserUsageRecord) (is_premium : Bool)
    (now : Date) : Option UserUsageRecord × UsageResponse :=
  let daily_limit := dailyLimitFor is_premium
  match store with
  | none => (none, ⟨0, 0, 0, daily_limit, monthlyLimit⟩)
  | some usage =>
    let today := now
    let first_of_month := now.monthStart
    let monthly_count := usage.monthly_count
    if usage.last_reset_daily.ltb today then
      (some { usage with daily_count := 0, last_reset_daily := today },
       ⟨0, monthly_count, usage.total_count, daily_limit, monthlyLimit⟩)
    else
      let monthlyRolled := Nat.blt usage.last_reset_monthly.month now.month
      let monthly_count := if monthlyRolled then 0 else monthly_count
      let store1 :=
        if monthlyRolled then
          { usage with monthly_count := 0, last_reset_monthly := first_of_month }
        else usage
      (some store1,
       ⟨usage.daily_count, monthly_count, usage.total_count, daily_limit, monthlyLimit⟩)

/-- Response of `GET /virtual-tryon/check-only/{device_id}`. -/
structure CheckOnlyResponse where
  device_exists : Bool
  counts : UsageCounts
deriving DecidableEq, Repr

/-- `GET /virtual-tryon/check-only/{device_id}` (`check_device_only`,
`virtual_tryon.py` lines 1787-1845): computes rollover-adjusted counts purely
in memory and issues no database write at all (the handler contains no
`update_one`), so the stored record is returned unchanged. -/
def check_device_only (store : Option UsageRecord) (now : Date) :
    Option UsageRecord × CheckOnlyResponse :=
  match store with
  | none => (none, ⟨false, ⟨0, 0, 0⟩⟩)
  | some usage =>
    let daily_count :=
      if usage.last_reset_daily.ltb now then 0 else usage.daily_count
    let monthly_count :=
      if Nat.blt usage.last_reset_monthly.month now.month then 0
      else usage.monthly_count
    (some usage, ⟨true, ⟨daily_count, monthly_count, usage.total_count⟩⟩)

/-- Status string of the `sync-stats` response. -/
inductive SyncStatus
  | created
  | updated
deriving DecidableEq, Repr

/-- `POST /virtual-tryon/sync-stats` (`sync_device_stats`, `virtual_tryon.py`
lines 1714-1785): if no record exists, insert one carrying the client-reported
counts; otherwise `$set` the three stored counters to the client-reported
values unconditionally (lines 1757-1780), leaving the reset timestamps as they
were. -/
def sync_device_stats (store : Option UsageRecord) (client : UsageCounts)
    (now : Date) : Option UsageRecord × SyncStatus :=
  let today := now
  let first_of_month := now.monthStart
  match store with
  | none =>
    (some ⟨client.daily_count, client.monthly_count, client.total_count,
           today, first_of_month⟩, .created)
  | some usage =>
    (some { usage with daily_count := client.daily_count,
                       monthly_count := client.monthly_count,
                       total_count := client.total_count }, .updated)

/-- A `tryon_usage` document in the shape written by `database.py`'s
`track_tryon_usage` (daily and total counters with a single `last_reset`). -/
structure DbUsageRecord where
  daily_count : Nat
  total_count : Nat
  last_reset : Date
deriving DecidableEq, Repr

/-- The counts dictionary returned by `database.track_tryon_usage`. -/
structure DbTrackCounts where
  daily_count : Nat
  total_count : Nat
deriving DecidableEq, Repr

/-- `database.track_tryon_usage` (`database.py` lines 71-139).  The `db`
parameter defaults to `None`; `db_initialized` models whether a database handle
was passed.  With `db = None` the function returns
`{"daily_count": 0, "total_count": 0}` before touching any collection, so the
store is unchanged.  Otherwise it resets-or-increments the daily counter and
`$inc`s the total (the comparison `last_reset < today_start` coincides with
date ordering, since `today_start` is the midnight truncation of `now`). -/
def database_track_tryon_usage (db_initialized : Bool)
    (store : Option DbUsageRecord) (now : Date) :
    Option DbUsageRecord × DbTrackCounts :=
  if ¬db_initialized then
    (store, ⟨0, 0⟩)
  else
    match store with
    | some usage =>
      if usage.last_reset.ltb now then
        (some { usage with daily_count := 1, last_reset := now,
                           total_count := usage.total_count + 1 },
         ⟨1, usage.total_count + 1⟩)
      else
        (some { usage with daily_count := usage.daily_count + 1,
                           total_count := usage.total_count + 1 },
         ⟨usage.daily_count + 1, usage.total_count + 1⟩)
    | none =>
      (some ⟨1, 1, now⟩, ⟨1, 1⟩)

/-- The `engagement_type == "tryon"` branch of
`POST /notifications/track-engagement` (`notifications.py` line 519) calls
`track_tryon_usage(str(current_user["_id"]))` with a single argument, leaving
the `db` parameter at its `None` default, regardless of the live connection the
endpoint itself holds. -/
def track_user_engagement_tryon (store : Option DbUsageRecord) (now : Date) :
    Option DbUsageRecord × DbTrackCounts :=
  database_track_tryon_usage false store now

/-- Python local names occurring in `start_virtual_try_on`
(`virtual_tryon.py` lines 244-613). -/
inductive PyName
  | model_image | garment_image | category | mode | moderation_level
  | cover_feet | adjust_hands | background_tasks | user_id | db
  | usage_collection | usage | subscription_collection | subscription
  | is_subscribed | daily_count | monthly_count | now | first_of_month
  | last_reset_monthly | cover_feet_bool | adjust_hands_bool
  | model_content | garment_content | model_temp_path | garment_temp_path
  | f | requests | model_file | garment_file | files | data | fashn_response
  | base64 | model_base64 | garment_base64 | json_payload | params | e
  | error_detail | error_json | result | prediction_id
  | device_id | new_usage | update_fields | increment_fields | updated_usage
  | predictions_collection
deriving DecidableEq, Repr

/-- Every name bound in `start_virtual_try_on` up to the point where line 496
executes `if device_id:` — the function's parameters (lines 245-255), every
assignment target, `with`/`except` binder and local `import` on lines 256-492.
`device_id` has no binding occurrence anywhere in this function; its only
occurrences (lines 496-577) are reads. -/
def tryAsyncBoundLocals : List PyName :=
  [.model_image, .garment_image, .category, .mode, .moderation_level,
   .cover_feet, .adjust_hands, .background_tasks, .user_id, .db,
   .usage_collection, .usage, .subscription_collection, .subscription,
   .is_subscribed, .daily_count, .monthly_count, .now, .first_of_month,
   .last_reset_monthly, .cover_feet_bool, .adjust_hands_bool,
   .model_content, .garment_content, .model_temp_path, .garment_temp_path,
   .f, .requests, .model_file, .garment_file, .files, .data, .fashn_response,
   .base64, .model_base64, .garment_base64, .json_payload, .params, .e,
   .error_detail, .error_json, .result, .prediction_id]

/-- Outcome of the tail of the `try-async` handler. -/
inductive HandlerResult
  | success (prediction_id : Nat)
  | httpError (status : Nat)
deriving DecidableEq, Repr

/-- The tail of `start_virtual_try_on` after `result` is parsed from the FASHN
response (`virtual_tryon.py` lines 485-613).  `fashnId` is `result.get("id")`.
If it is absent the handler raises a 500.  Otherwise line 496 evaluates the
bare name `device_id`: if the name is bound in the environment, the inline
device tracking runs, the prediction is stored and the success response is
returned; if it is unbound, Python raises `NameError`, which falls through to
the generic `except Exception` handler at line 608 and becomes an HTTP 500,
with neither the user-keyed nor the device-keyed usage record touched. -/
def try_async_after_fashn (env : List PyName)
    (userStore : Option UserUsageRecord) (deviceStore : Option UsageRecord)
    (fashnId : Option Nat) (now : Date) :
    Option UserUsageRecord × Option UsageRecord × HandlerResult :=
  match fashnId with
  | none => (userStore, deviceStore, .httpError 500)
  | some pid =>
    if env.contains .device_id then
      (userStore, inline_device_tracking deviceStore now, .success pid)
    else
      (userStore, deviceStore, .httpError 500)

/-- The four database awaits of two concurrent `device-usage` consume requests
for the same device: each task first executes its `find_one` (lines 852-853),
then its check-and-`$inc` section (lines 958-1020). -/
inductive RaceEv
  | read0 | read1 | update0 | update1
deriving DecidableEq, Repr

/-- Joint state of the stored record and the two in-flight requests: the
snapshot each obtained from `find_one` (if it already ran) and the decision it
reached (if its check section already ran; `some none` is an allowed
consumption). -/
structure RaceState where
  store : UsageRecord
  snap0 : Option UsageCounts
  snap1 : Option UsageCounts
  dec0 : Option (Option LimitReason)
  dec1 : Option (Option LimitReason)
deriving DecidableEq, Repr

/-- One scheduler step of the two-request race on
`track_device_try_on_usage`, for a record whose reset timestamps are current
(so neither reset branch fires and the handler's awaits are exactly `find_one`
and the `$inc` `update_one`).  A read step snapshots the live counters; an
update step runs `device_decide` on that task's snapshot — not on the live
record — and, when allowed, applies the atomic `$inc` to the live record. -/
def raceStep (is_subscribed : Bool) (s : RaceState) (ev : RaceEv) : RaceState :=
  match ev with
  | .read0 => { s with snap0 := some s.store.counts }
  | .read1 => { s with snap1 := some s.store.counts }
  | .update0 =>
    match s.snap0 with
    | none => s
    | some c =>
      match device_decide c.daily_count c.monthly_count is_subscribed with
      | some r => { s with dec0 := some (some r) }
      | none => { s with dec0 := some none, store := s.store.incAll }
  | .update1 =>
    match s.snap1 with
    | none => s
    | some c =>
      match device_decide c.daily_count c.monthly_count is_subscribed with
      | some r => { s with dec1 := some (some r) }
      | none => { s with dec1 := some none, store := s.store.incAll }

/-- Run a schedule of the two-request race from an initial stored record. -/
def runRace (is_subscribed : Bool) (init : UsageRecord) (sched : List RaceEv) :
    RaceState :=
  sched.foldl (raceStep is_subscribed) ⟨init, none, none, none, none⟩

/-- Total counter stored for a device subject (0 when no record exists). -/
def storeTotalCount : Option UsageRecord → Nat
  | none => 0
  | some u => u.total_count

/-- Total counter stored for a user subject (0 when no record exists). -/
def userStoreTotalCount : Option UserUsageRecord → Nat
  | none => 0
  | some u => u.total_count

/-- Total counter stored in a `database.py`-shaped record. -/
def dbStoreTotalCount : Option DbUsageRecord → Nat
  | none => 0
  | some u => u.total_count

/-- C1: the sync-stats endpoint is a usage-mutating operation whose successful
write (`status = updated`) leaves the stored record with
`daily_count = 5 > 1 = daily_limit(free)` and `monthly_count = 50 > 40`,
so a write can leave the counters over their limits. -/
theorem sync_stats_write_exceeds_limits :
    sync_device_stats (some ⟨1, 10, 10, ⟨2025, 6, 2⟩, ⟨2025, 6, 1⟩⟩)
        ⟨5, 50, 12⟩ ⟨2025, 6, 2⟩ =
      (some ⟨5, 50, 12, ⟨2025, 6, 2⟩, ⟨2025, 6, 1⟩⟩, SyncStatus.updated) ∧
    dailyLimitFor false < 5 ∧ monthlyLimit < 50 := by
  decide

/-- C2 counterexample: a free-tier subject whose effective counts exceed both
caps (`daily_count = 1 ≥ 1`, `monthly_count = 40 ≥ 40`) is denied with the
DAILY reason, not the monthly one, by `check_device_tryon_limits` and by
`check_tryon_limit`: these operations check the daily cap first. -/
theorem check_limits_daily_when_both_exceeded :
    (check_device_tryon_limits (some ⟨1, 40, 40, ⟨2025, 6, 2⟩, ⟨2025, 6, 1⟩⟩)
        false ⟨2025, 6, 2⟩).2.reason = some LimitReason.daily ∧
    (check_tryon_limit (some ⟨1, 40, 40, ⟨2025, 6, 2⟩, ⟨2025, 6, 1⟩, false⟩)
        false ⟨2025, 6, 2⟩).2.reason = some LimitReason.daily := by
  decide

/-- C2 amended: for a free-tier subject over both caps in the current windows,
the consuming operations (`track_device_try_on_usage`, `track_tryon_usage`)
deny with the monthly reason, while the limit-check helpers
(`check_device_tryon_limits`, `check_tryon_limit`) and the try-async inline
check test the daily cap first and attribute the denial to it. -/
theorem limit_reason_order_by_operation (u : UsageRecord) (v : UserUsageRecord)
    (now : Date)
    (hud : u.last_reset_daily.ltb now = false)
    (hum : Nat.blt u.last_reset_monthly.month now.month = false)
    (hvd : v.last_reset_daily.ltb now = false)
    (hvm : Nat.blt v.last_reset_monthly.month now.month = false)
    (hu1 : u.monthly_count ≥ 40) (hu2 : u.daily_count ≥ 1)
    (hv1 : v.monthly_count ≥ 40) (hv2 : v.daily_count ≥ 1) :
    (track_device_try_on_usage (some u) false false now).2.error =
        some LimitReason.monthly ∧
    (track_tryon_usage (some v) false now).2 = some LimitReason.monthly ∧
    (try_async_usage_check (some v) false now).2 = TryAsyncDecision.paywallDaily ∧
    (check_device_tryon_limits (some u) false now).2.reason =
        some LimitReason.daily ∧
    (check_tryon_limit (some v) false now).2.reason = some LimitReason.daily := by
  refine ⟨?_, ?_, ?_, ?_, ?_⟩
  · simp [track_device_try_on_usage, device_decide, monthlyLimit, hud, hum, hu1]
  · simp [track_tryon_usage, monthlyLimit, hvd, hvm, hv1]
  · simp [try_async_usage_check, hvm, hv2]
  · simp [check_device_tryon_limits, dailyLimitFor, hud, hum, hu2]
  · simp [check_tryon_limit, dailyLimitFor, hvd, hvm, hv2]

/-- Witness for `limit_reason_order_by_operation` at a concrete free-tier
record over both caps. -/
theorem limit_reason_order_witness :
    (track_device_try_on_usage (some ⟨1, 40, 40, ⟨2025, 6, 2⟩, ⟨2025, 6, 1⟩⟩)
        false false ⟨2025, 6, 2⟩).2.error = some LimitReason.monthly ∧
    (track_tryon_usage (some ⟨1, 40, 40, ⟨2025, 6, 2⟩, ⟨2025, 6, 1⟩, false⟩)
        false ⟨2025, 6, 2⟩).2 = some LimitReason.monthly ∧
    (try_async_usage_check (some ⟨1, 40, 40, ⟨2025, 6, 2⟩, ⟨2025, 6, 1⟩, false⟩)
        false ⟨2025, 6, 2⟩).2 = TryAsyncDecision.paywallDaily ∧
    (check_device_tryon_limits (some ⟨1, 40, 40, ⟨2025, 6, 2⟩, ⟨2025, 6, 1⟩⟩)
        false ⟨2025, 6, 2⟩).2.reason = some LimitReason.daily ∧
    (check_tryon_limit (some ⟨1, 40, 40, ⟨2025, 6, 2⟩, ⟨2025, 6, 1⟩, false⟩)
        false ⟨2025, 6, 2⟩).2.reason = some LimitReason.daily :=
  limit_reason_order_by_operation
    ⟨1, 40, 40, ⟨2025, 6, 2⟩, ⟨2025, 6, 1⟩⟩
    ⟨1, 40, 40, ⟨2025, 6, 2⟩, ⟨2025, 6, 1⟩, false⟩
    ⟨2025, 6, 2⟩ (by decide) (by decide) (by decide) (by decide)
    (by decide) (by decide) (by decide) (by decide)

/-- C3 counterexample: sync-stats with client counts lower than the stored
server counts does not leave the server counts unchanged — it overwrites them
downward (stored `(1, 7, 9)` becomes the client's `(0, 2, 3)`). -/
theorem sync_stats_not_monotonic :
    sync_device_stats (some ⟨1, 7, 9, ⟨2025, 3, 5⟩, ⟨2025, 3, 1⟩⟩)
        ⟨0, 2, 3⟩ ⟨2025, 3, 5⟩ =
      (some ⟨0, 2, 3, ⟨2025, 3, 5⟩, ⟨2025, 3, 1⟩⟩, SyncStatus.updated) ∧
    (0 < 1 ∧ 2 < 7 ∧ 3 < 9) := by
  decide

/-- C3 amended: sync-stats is an unconditional overwrite, not a monotonic
merge — for every existing record the three stored counters become exactly the
client-reported counts (whether lower or higher), and for an absent record a
new one is created carrying the client counts. -/
theorem sync_stats_overwrites_unconditionally (u : UsageRecord)
    (c : UsageCounts) (now : Date) :
    (sync_device_stats (some u) c now).1 =
      some { u with daily_count := c.daily_count,
                    monthly_count := c.monthly_count,
                    total_count := c.total_count } ∧
    (sync_device_stats none c now).1 =
      some ⟨c.daily_count, c.monthly_count, c.total_count, now, now.monthStart⟩ :=
  ⟨rfl, rfl⟩

/-- C4: a free-tier user record with `daily_count = 1` and a daily reset
timestamp from the previous day is denied by the try-async usage check
(paywall, i.e. the daily limit), because `start_virtual_try_on` never applies
the daily rollover; the device-usage consuming endpoint on the same counters
applies reset-then-increment and allows with `daily_count = 1`. -/
theorem try_async_daily_rollover_denied :
    (try_async_usage_check
        (some ⟨1, 5, 20, ⟨2025, 6, 1⟩, ⟨2025, 6, 1⟩, false⟩)
        false ⟨2025, 6, 2⟩).2 = TryAsyncDecision.paywallDaily ∧
    (track_device_try_on_usage (some ⟨1, 5, 20, ⟨2025, 6, 1⟩, ⟨2025, 6, 1⟩⟩)
        false false ⟨2025, 6, 2⟩).2.error = none ∧
    (track_device_try_on_usage (some ⟨1, 5, 20, ⟨2025, 6, 1⟩, ⟨2025, 6, 1⟩⟩)
        false false ⟨2025, 6, 2⟩).2.counts.daily_count = 1 := by
  decide

/-- C5: a record whose monthly reset timestamp (December 2024) lies in a
genuinely earlier month than now (January 2025) is NOT treated as rolled over:
the `.month < .month` comparison (12 < 1) fails across the year boundary, so
the consuming endpoint leaves the stored monthly counter at 40 and reports 40,
and the read-only check also reports 40 instead of 0. -/
theorem monthly_rollover_misses_year_boundary :
    Date.monthEarlier ⟨2024, 12, 1⟩ ⟨2025, 1, 15⟩ ∧
    (track_device_try_on_usage
        (some ⟨0, 40, 40, ⟨2025, 1, 15⟩, ⟨2024, 12, 1⟩⟩)
        true false ⟨2025, 1, 15⟩).1 =
      some ⟨0, 40, 40, ⟨2025, 1, 15⟩, ⟨2024, 12, 1⟩⟩ ∧
    (track_device_try_on_usage
        (some ⟨0, 40, 40, ⟨2025, 1, 15⟩, ⟨2024, 12, 1⟩⟩)
        true false ⟨2025, 1, 15⟩).2.counts.monthly_count = 40 ∧
    (check_device_only (some ⟨0, 40, 40, ⟨2025, 1, 15⟩, ⟨2024, 12, 1⟩⟩)
        ⟨2025, 1, 15⟩).2.counts.monthly_count = 40 := by
  decide

/-- C6 counterexample: sync-stats writes a `total_count` (3) strictly lower
than the stored value (25), so the lifetime counter is not monotonically
non-decreasing across all operations. -/
theorem sync_stats_lowers_total_count :
    sync_device_stats (some ⟨1, 10, 25, ⟨2025, 4, 8⟩, ⟨2025, 4, 1⟩⟩)
        ⟨1, 10, 3⟩ ⟨2025, 4, 8⟩ =
      (some ⟨1, 10, 3, ⟨2025, 4, 8⟩, ⟨2025, 4, 1⟩⟩, SyncStatus.updated) ∧
    3 < 25 := by
  decide

/-- C6 amended: every usage operation except sync-stats never lowers the
stored lifetime counter: the consuming paths (`track_device_try_on_usage`,
the try-async/test inline tracking, `track_tryon_usage`,
`database.track_tryon_usage`) only ever increment it (rollover resets do not
touch it), and the read paths (`get_try_on_usage`, `check_device_only`) leave
it unchanged. -/
theorem total_count_monotone_outside_sync (u : UsageRecord)
    (v : UserUsageRecord) (w : DbUsageRecord) (chk sub prem ini : Bool)
    (now : Date) :
    u.total_count ≤ storeTotalCount (track_device_try_on_usage (some u) chk sub now).1 ∧
    u.total_count ≤ storeTotalCount (inline_device_tracking (some u) now) ∧
    v.total_count ≤ userStoreTotalCount (track_tryon_usage (some v) sub now).1 ∧
    w.total_count ≤ dbStoreTotalCount (database_track_tryon_usage ini (some w) now).1 ∧
    userStoreTotalCount (get_try_on_usage (some v) prem now).1 = v.total_count ∧
    (check_device_only (some u) now).1 = some u := by
  refine ⟨?_, ?_, ?_, ?_, ?_, ?_⟩
  · simp only [track_device_try_on_usage]
    repeat' split
    all_goals simp only [storeTotalCount, UsageRecord.incAll]
    all_goals omega
  · simp only [inline_device_tracking]
    repeat' split
    all_goals simp only [storeTotalCount]
    all_goals omega
  · simp only [track_tryon_usage]
    repeat' split
    all_goals simp only [userStoreTotalCount]
    all_goals omega
  · simp only [database_track_tryon_usage]
    repeat' split
    all_goals simp only [dbStoreTotalCount]
    all_goals omega
  · simp only [get_try_on_usage]
    repeat' split
    all_goals simp [userStoreTotalCount]
  · simp [check_device_only]

/-- C7: two concurrent consume requests on a free-tier device record with one
remaining daily slot (`daily_count = 0`, limit 1), interleaved so that both
`find_one` reads happen before either `$inc` write, are BOTH allowed, and the
stored daily counter ends at 2, over the limit of 1. -/
theorem race_two_allowed_one_slot :
    (runRace false ⟨0, 5, 5, ⟨2025, 6, 2⟩, ⟨2025, 6, 1⟩⟩
        [.read0, .read1, .update0, .update1]).dec0 = some none ∧
    (runRace false ⟨0, 5, 5, ⟨2025, 6, 2⟩, ⟨2025, 6, 1⟩⟩
        [.read0, .read1, .update0, .update1]).dec1 = some none ∧
    (runRace false ⟨0, 5, 5, ⟨2025, 6, 2⟩, ⟨2025, 6, 1⟩⟩
        [.read0, .read1, .update0, .update1]).store.daily_count = 2 ∧
    dailyLimitFor false = 1 := by
  decide

/-- C8 counterexample: a read-only check call with no intervening consume can
change the stored counters — `get_try_on_usage` invoked on 2025-06-02 on a
record with `daily_count = 1` and `last_reset_daily` = 2025-06-01 persists the
daily reset, `$set`ting the stored `daily_count` from 1 to 0. -/
theorem get_usage_writes_on_stale_daily_record :
    (get_try_on_usage (some ⟨1, 3, 10, ⟨2025, 6, 1⟩, ⟨2025, 6, 1⟩, false⟩)
        false ⟨2025, 6, 2⟩).1 =
      some ⟨0, 3, 10, ⟨2025, 6, 2⟩, ⟨2025, 6, 1⟩, false⟩ ∧
    (0 : Nat) ≠ 1 := by
  decide

/-- C8 amended: on a record whose daily window is current (same day) and whose
monthly window has not rolled, the read-only checks change no stored counter:
`get_try_on_usage` returns the store unchanged (and stays unchanged under any
number of repetitions), and `check_device_only` never writes at all.  (When a
rollover is pending, `get_try_on_usage`'s first call persists the
corresponding reset, as the counterexample shows.) -/
theorem same_day_checks_preserve_counters (v : UserUsageRecord)
    (u : UsageRecord) (prem : Bool) (now : Date)
    (h1 : v.last_reset_daily.ltb now = false)
    (h2 : Nat.blt v.last_reset_monthly.month now.month = false) :
    (get_try_on_usage (some v) prem now).1 = some v ∧
    (check_device_only (some u) now).1 = some u ∧
    ∀ n : Nat, (fun s => (get_try_on_usage s prem now).1)^[n] (some v) = some v := by
  have hstep : (get_try_on_usage (some v) prem now).1 = some v := by
    simp [get_try_on_usage, h1, h2]
  refine ⟨hstep, rfl, ?_⟩
  intro n
  induction n with
  | zero => rfl
  | succ n ih =>
    rw [Function.iterate_succ_apply, hstep]
    exact ih

/-- Witness for `same_day_checks_preserve_counters` at concrete same-day
records. -/
theorem same_day_checks_preserve_counters_witness :
    (get_try_on_usage (some ⟨1, 3, 10, ⟨2025, 6, 2⟩, ⟨2025, 6, 1⟩, false⟩)
        false ⟨2025, 6, 2⟩).1 =
      some ⟨1, 3, 10, ⟨2025, 6, 2⟩, ⟨2025, 6, 1⟩, false⟩ ∧
    (check_device_only (some ⟨2, 4, 9, ⟨2025, 6, 2⟩, ⟨2025, 6, 1⟩⟩)
        ⟨2025, 6, 2⟩).1 = some ⟨2, 4, 9, ⟨2025, 6, 2⟩, ⟨2025, 6, 1⟩⟩ :=
  ⟨(same_day_checks_preserve_counters
      ⟨1, 3, 10, ⟨2025, 6, 2⟩, ⟨2025, 6, 1⟩, false⟩
      ⟨2, 4, 9, ⟨2025, 6, 2⟩, ⟨2025, 6, 1⟩⟩ false ⟨2025, 6, 2⟩
      (by decide) (by decide)).1,
   (same_day_checks_preserve_counters
      ⟨1, 3, 10, ⟨2025, 6, 2⟩, ⟨2025, 6, 1⟩, false⟩
      ⟨2, 4, 9, ⟨2025, 6, 2⟩, ⟨2025, 6, 1⟩⟩ false ⟨2025, 6, 2⟩
      (by decide) (by decide)).2.1⟩

/-- C9: `device_id` is not among the names bound in `start_virtual_try_on`, so
every execution that obtains a prediction id from the FASHN call hits the
`NameError` at `if device_id:` and ends as an HTTP 500 from the generic
exception handler, with both the user-keyed and the device-keyed usage records
unchanged and no success response. -/
theorem try_async_unbound_device_id_500 (userStore : Option UserUsageRecord)
    (deviceStore : Option UsageRecord) (pid : Nat) (now : Date) :
    PyName.device_id ∉ tryAsyncBoundLocals ∧
    try_async_after_fashn tryAsyncBoundLocals userStore deviceStore
        (some pid) now =
      (userStore, deviceStore, HandlerResult.httpError 500) := by
  refine ⟨by decide, ?_⟩
  simp only [try_async_after_fashn]
  rw [if_neg]
  decide

/-- C10: `database.track_tryon_usage` invoked with its `db` parameter left at
the `None` default — exactly what the engagement-tracking endpoint's `tryon`
branch does — performs no write and reports zero counts, whatever the stored
usage record holds. -/
theorem engagement_tryon_tracking_dropped (store : Option DbUsageRecord)
    (now : Date) :
    track_user_engagement_tryon store now = (store, ⟨0, 0⟩) ∧
    database_track_tryon_usage false store now = (store, ⟨0, 0⟩) := by
  constructor <;>
    simp [track_user_engagement_tryon, database_track_tryon_usage]

end Velra
